import Mathlib

/-!
Verification of the LEDTouchTable PWM firmware (`src/pwm.c`, `src/color.h`).

The embedding models the AVR machine state visible to the driver: the I/O
registers it touches (8-bit: PORTA, DDRA, TOCPMSA0, TOCPMSA1, TOCPMCOE,
TCCR1A, TCCR1B, TCCR2A, TCCR2B, SREG; 16-bit: OCR1A, OCR1B, OCR2A, ICR1,
ICR2) and the global variable `pwm_color_rgb`.  Registers are modelled as
`Nat`; every write the driver performs is either a constant below the
register width or a bitwise OR/AND with a constant mask below the width, so
no write can overflow an in-range register and no truncation is needed.
Each C function becomes a pure state transformer applying its register
writes in source order.
-/

set_option maxRecDepth 20000

/-- RGB color, from `color.h`: three `uint8_t` components. -/
structure color_rgb_t where
  red : Fin 256
  green : Fin 256
  blue : Fin 256
  deriving DecidableEq, Repr

/-- Bit value macro `_BV(n) = 1 << n` from `avr/io.h`. -/
def BV (n : Nat) : Nat := 1 <<< n

/-- Bit numbers of the ATtiny841 registers used by `pwm.c`. -/
def PA4 : Nat := 4

/-- Bit `PA5` of `PORTA`/`DDRA`. -/
def PA5 : Nat := 5

/-- Bit `PA6` of `PORTA`/`DDRA`. -/
def PA6 : Nat := 6

/-- Bit `TOCC3S1` of `TOCPMSA0`. -/
def TOCC3S1 : Nat := 7

/-- Bit `TOCC4S0` of `TOCPMSA1`. -/
def TOCC4S0 : Nat := 0

/-- Bit `TOCC5S0` of `TOCPMSA1`. -/
def TOCC5S0 : Nat := 2

/-- Bit `TOCC3OE` of `TOCPMCOE`. -/
def TOCC3OE : Nat := 3

/-- Bit `TOCC4OE` of `TOCPMCOE`. -/
def TOCC4OE : Nat := 4

/-- Bit `TOCC5OE` of `TOCPMCOE`. -/
def TOCC5OE : Nat := 5

/-- Bit `WGM11` of `TCCR1A`. -/
def WGM11 : Nat := 1

/-- Bit `WGM13` of `TCCR1B`. -/
def WGM13 : Nat := 4

/-- Bit `CS10` of `TCCR1B`. -/
def CS10 : Nat := 0

/-- Bit `WGM21` of `TCCR2A`. -/
def WGM21 : Nat := 1

/-- Bit `WGM23` of `TCCR2B`. -/
def WGM23 : Nat := 4

/-- Bit `CS20` of `TCCR2B`. -/
def CS20 : Nat := 0

/-- Bit `COM1A1` of `TCCR1A`. -/
def COM1A1 : Nat := 7

/-- Bit `COM1A0` of `TCCR1A`. -/
def COM1A0 : Nat := 6

/-- Bit `COM1B1` of `TCCR1A`. -/
def COM1B1 : Nat := 5

/-- Bit `COM1B0` of `TCCR1A`. -/
def COM1B0 : Nat := 4

/-- Bit `COM2A1` of `TCCR2A`. -/
def COM2A1 : Nat := 7

/-- Bit `COM2A0` of `TCCR2A`. -/
def COM2A0 : Nat := 6

/-- Constant `UINT16_MAX` used by `pwm_init` for `ICR1`/`ICR2`. -/
def UINT16_MAX : Nat := 65535

/-- The complement `~m` of an 8-bit mask, as used in `x &= ~(mask)` on a
`uint8_t` register: only the low 8 bits of the complement survive the AND. -/
def compl8 (m : Nat) : Nat := 255 ^^^ m

/-- Machine state visible to the driver: the registers `pwm.c` touches and
the global `pwm_color_rgb`. -/
structure PwmState where
  PORTA : Nat
  DDRA : Nat
  OCR1A : Nat
  OCR1B : Nat
  OCR2A : Nat
  TOCPMSA0 : Nat
  TOCPMSA1 : Nat
  TOCPMCOE : Nat
  ICR1 : Nat
  TCCR1A : Nat
  TCCR1B : Nat
  ICR2 : Nat
  TCCR2A : Nat
  TCCR2B : Nat
  SREG : Nat
  pwm_color_rgb : color_rgb_t
  deriving DecidableEq, Repr

/-- State at reset: AVR I/O registers reset to zero, `SREG` reset to zero
(interrupts disabled), and the global `pwm_color_rgb` initialised to
`{0, 0, 0}` as written in `pwm.c` line 90. -/
def startup_state : PwmState :=
  { PORTA := 0, DDRA := 0, OCR1A := 0, OCR1B := 0, OCR2A := 0,
    TOCPMSA0 := 0, TOCPMSA1 := 0, TOCPMCOE := 0,
    ICR1 := 0, TCCR1A := 0, TCCR1B := 0,
    ICR2 := 0, TCCR2A := 0, TCCR2B := 0,
    SREG := 0, pwm_color_rgb := ⟨0, 0, 0⟩ }

/-- The `cli()` intrinsic: clears the global interrupt-enable flag, bit 7
(the I bit) of `SREG`. -/
def cli (s : PwmState) : PwmState := { s with SREG := s.SREG &&& 127 }

/-- The 256-entry PWM brightness table from `pwm.c` lines 55..78,
transcribed verbatim. -/
def pwm_table : List Nat := [
    0, 1, 1, 1, 1, 1, 1, 1, 1, 2, 2, 2, 2, 2, 2, 2, 2, 2, 2, 2, 2, 3,
    3, 3, 3, 3, 3, 3, 4, 4, 4, 4, 4, 4, 5, 5, 5, 5, 5, 6, 6, 6, 6, 7,
    7, 7, 8, 8, 8, 9, 9, 10, 10, 10, 11, 11, 12, 12, 13, 13, 14, 15,
    15, 16, 17, 17, 18, 19, 20, 21, 22, 23, 24, 25, 26, 27, 28, 29,
    31, 32, 33, 35, 36, 38, 40, 41, 43, 45, 47, 49, 52, 54, 56, 59,
    61, 64, 67, 70, 73, 76, 79, 83, 87, 91, 95, 99, 103, 108, 112,
    117, 123, 128, 134, 140, 146, 152, 159, 166, 173, 181, 189, 197,
    206, 215, 225, 235, 245, 256, 267, 279, 292, 304, 318, 332, 347,
    362, 378, 395, 412, 431, 450, 470, 490, 512, 535, 558, 583, 609,
    636, 664, 693, 724, 756, 790, 825, 861, 899, 939, 981, 1024, 1069,
    1117, 1166, 1218, 1272, 1328, 1387, 1448, 1512, 1579, 1649, 1722,
    1798, 1878, 1961, 2048, 2139, 2233, 2332, 2435, 2543, 2656, 2773,
    2896, 3025, 3158, 3298, 3444, 3597, 3756, 3922, 4096, 4277, 4467,
    4664, 4871, 5087, 5312, 5547, 5793, 6049, 6317, 6596, 6889, 7194,
    7512, 7845, 8192, 8555, 8933, 9329, 9742, 10173, 10624, 11094,
    11585, 12098, 12634, 13193, 13777, 14387, 15024, 15689, 16384,
    17109, 17867, 18658, 19484, 20346, 21247, 22188, 23170, 24196,
    25267, 26386, 27554, 28774, 30048, 31378, 32768, 34218, 35733,
    37315, 38967, 40693, 42494, 44376, 46340, 48392, 50534, 52772,
    55108, 57548, 60096, 62757, 65535]

/-- Table lookup `pgm_read_word(&pwm_table[i])`: reads entry `i` of the
brightness table (the spec calls this `value_at`). -/
def pwm_table_value (i : Nat) : Nat := pwm_table.getD i 0

/-- The function `pwm_init` (`pwm.c` lines 107..139), writes in source
order. -/
def pwm_init (s : PwmState) : PwmState :=
  let s := { s with PORTA := s.PORTA ||| (BV PA6 ||| BV PA5 ||| BV PA4) }
  let s := { s with DDRA := s.DDRA ||| (BV PA6 ||| BV PA5 ||| BV PA4) }
  let s := { s with OCR1A := 0, OCR1B := 0, OCR2A := 0 }
  let s := { s with TOCPMSA0 := BV TOCC3S1 }
  let s := { s with TOCPMSA1 := BV TOCC4S0 ||| BV TOCC5S0 }
  let s := { s with TOCPMCOE := BV TOCC5OE ||| BV TOCC4OE ||| BV TOCC3OE }
  let s := { s with ICR1 := UINT16_MAX }
  let s := { s with TCCR1A := BV WGM11 }
  let s := { s with TCCR1B := BV WGM13 ||| BV CS10 }
  let s := { s with ICR2 := UINT16_MAX }
  let s := { s with TCCR2A := BV WGM21 }
  let s := { s with TCCR2B := BV WGM23 ||| BV CS20 }
  s

/-- The function `pwm_enable` (`pwm.c` lines 152..170): save `SREG`, `cli`,
set pin bits of `PORTA`, OR the compare-output-mode bits into `TCCR1A` and
`TCCR2A`, restore `SREG`. -/
def pwm_enable (s : PwmState) : PwmState :=
  let tmp := s.SREG
  let s := cli s
  let s := { s with PORTA := s.PORTA ||| (BV PA6 ||| BV PA5 ||| BV PA4) }
  let s := { s with
    TCCR1A := s.TCCR1A ||| (BV COM1A1 ||| BV COM1A0 ||| BV COM1B1 ||| BV COM1B0) }
  let s := { s with TCCR2A := s.TCCR2A ||| (BV COM2A1 ||| BV COM2A0) }
  { s with SREG := tmp }

/-- The function `pwm_disable` (`pwm.c` lines 185..202): save `SREG`, `cli`,
clear the compare-output-mode bits of `TCCR1A` and `TCCR2A`, set the pin
bits of `PORTA`, restore `SREG`. -/
def pwm_disable (s : PwmState) : PwmState :=
  let tmp := s.SREG
  let s := cli s
  let s := { s with
    TCCR1A := s.TCCR1A &&& compl8 (BV COM1A1 ||| BV COM1A0 ||| BV COM1B1 ||| BV COM1B0) }
  let s := { s with TCCR2A := s.TCCR2A &&& compl8 (BV COM2A1 ||| BV COM2A0) }
  let s := { s with PORTA := s.PORTA ||| (BV PA6 ||| BV PA5 ||| BV PA4) }
  { s with SREG := tmp }

/-- The static function `pwm_set_compare_values` (`pwm.c` lines 217..232):
save `SREG`, `cli`, assign the three compare registers, restore `SREG`. -/
def pwm_set_compare_values (red green blue : Nat) (s : PwmState) : PwmState :=
  let tmp := s.SREG
  let s := cli s
  let s := { s with OCR1A := red, OCR1B := green, OCR2A := blue }
  { s with SREG := tmp }

/-- The function `pwm_set_color_rgb` (`pwm.c` lines 249..263): store the
color in `pwm_color_rgb`, look up the three table values, apply them
through `pwm_set_compare_values`. -/
def pwm_set_color_rgb (color : color_rgb_t) (s : PwmState) : PwmState :=
  let s := { s with pwm_color_rgb := color }
  let red_value := pwm_table_value color.red.val
  let green_value := pwm_table_value color.green.val
  let blue_value := pwm_table_value color.blue.val
  pwm_set_compare_values red_value green_value blue_value s

/-- The function `pwm_get_color_rgb` (`pwm.c` lines 272..277): returns the
stored color. -/
def pwm_get_color_rgb (s : PwmState) : color_rgb_t := s.pwm_color_rgb

/-- The mask of the three LED pins `PA6 | PA5 | PA4` of `PORTA`.  The LEDs
are active low (`pwm.c` line 110), so a pin is at the inactive logic level
exactly when its `PORTA` bit is set. -/
def pin_mask : Nat := BV PA6 ||| BV PA5 ||| BV PA4

/-- Output pins at the inactive logic level: the timer compare-match
outputs are disconnected from the pins (all compare-output-mode bits of
`TCCR1A` and `TCCR2A` are clear, so the port drives the pins), and all
three active-low LED pin bits of `PORTA` are set, driving the pins high. -/
def pins_inactive (s : PwmState) : Prop :=
  s.PORTA &&& pin_mask = pin_mask ∧
  s.TCCR1A &&& (BV COM1A1 ||| BV COM1A0 ||| BV COM1B1 ||| BV COM1B0) = 0 ∧
  s.TCCR2A &&& (BV COM2A1 ||| BV COM2A0) = 0

instance (s : PwmState) : Decidable (pins_inactive s) := by
  unfold pins_inactive; infer_instance

/-- The brightness table has exactly 256 entries. -/
theorem pwm_table_length : pwm_table.length = 256 := by decide

/-- ORing the same mask twice is the same as ORing it once. -/
theorem or_mask_idem (x m : Nat) : (x ||| m) ||| m = x ||| m := by
  rw [Nat.or_assoc, Nat.or_self]

/-- ANDing the same mask twice is the same as ANDing it once. -/
theorem and_mask_idem (x m : Nat) : (x &&& m) &&& m = x &&& m := by
  rw [Nat.and_assoc, Nat.and_self]

/-- After ORing a mask into a register, all bits of the mask read back set. -/
theorem or_and_mask (x m : Nat) : (x ||| m) &&& m = m := by
  apply Nat.eq_of_testBit_eq
  intro i
  simp only [Nat.testBit_or, Nat.testBit_and]
  cases m.testBit i <;> simp

/-- After ANDing the 8-bit complement of a mask into a register, all bits of
the mask read back clear, provided the complement and the mask are disjoint. -/
theorem and_compl8_mask_self (y m : Nat) (h : compl8 m &&& m = 0) :
    (y &&& compl8 m) &&& m = 0 := by
  rw [Nat.and_assoc, h, Nat.and_zero]

/-- C1: after `pwm_set_color_rgb color` the red compare register `OCR1A`
equals the table entry at `color.red`, the green compare register `OCR1B`
the entry at `color.green`, and the blue compare register `OCR2A` the entry
at `color.blue`; in particular for the color (128,128,128) all three
compare registers equal the table entry at 128. -/
theorem set_color_compare_registers (color : color_rgb_t) (s : PwmState) :
    (pwm_set_color_rgb color s).OCR1A = pwm_table_value color.red.val ∧
    (pwm_set_color_rgb color s).OCR1B = pwm_table_value color.green.val ∧
    (pwm_set_color_rgb color s).OCR2A = pwm_table_value color.blue.val ∧
    ((pwm_set_color_rgb ⟨128, 128, 128⟩ s).OCR1A = pwm_table_value 128 ∧
     (pwm_set_color_rgb ⟨128, 128, 128⟩ s).OCR1B = pwm_table_value 128 ∧
     (pwm_set_color_rgb ⟨128, 128, 128⟩ s).OCR2A = pwm_table_value 128) :=
  ⟨rfl, rfl, rfl, rfl, rfl, rfl⟩

/-- C2: the brightness table is monotonically non-decreasing: for every
level L below 255, the entry at L is at most the entry at L+1. -/
theorem pwm_table_monotone :
    ∀ L : Nat, L < 255 → pwm_table_value L ≤ pwm_table_value (L + 1) := by
  decide

/-- Witness for C2 at the concrete level 100. -/
theorem pwm_table_monotone_witness :
    (100 : Nat) < 255 ∧ pwm_table_value 100 ≤ pwm_table_value 101 :=
  ⟨by decide, pwm_table_monotone 100 (by decide)⟩

/-- C3: the table endpoints are fixed: entry 0 is 0 and entry 255 is 65535,
the maximum representable 16-bit value. -/
theorem pwm_table_endpoints :
    pwm_table_value 0 = 0 ∧ pwm_table_value 255 = 65535 := by
  decide

/-- C4: round-trip identity: `pwm_get_color_rgb` immediately after
`pwm_set_color_rgb color` returns exactly `color`. -/
theorem set_get_roundtrip (color : color_rgb_t) (s : PwmState) :
    pwm_get_color_rgb (pwm_set_color_rgb color s) = color := rfl

/-- C5: immediately after `pwm_init` as the first operation from the
startup state, `pwm_get_color_rgb` returns (0,0,0) and all three compare
registers are zero. -/
theorem init_startup_zero :
    pwm_get_color_rgb (pwm_init startup_state) = ⟨0, 0, 0⟩ ∧
    (pwm_init startup_state).OCR1A = 0 ∧
    (pwm_init startup_state).OCR1B = 0 ∧
    (pwm_init startup_state).OCR2A = 0 :=
  ⟨rfl, rfl, rfl, rfl⟩

/-- C6: from every state and every prior `SREG`, each of `pwm_enable`,
`pwm_disable` and `pwm_set_color_rgb` leaves `SREG` equal to its value
before the call. -/
theorem sreg_preserved (s : PwmState) (color : color_rgb_t) :
    (pwm_enable s).SREG = s.SREG ∧
    (pwm_disable s).SREG = s.SREG ∧
    (pwm_set_color_rgb color s).SREG = s.SREG :=
  ⟨rfl, rfl, rfl⟩

/-- C7: `pwm_disable` is idempotent: calling it twice from any state leaves
the entire machine state identical to calling it once. -/
theorem disable_idempotent (s : PwmState) :
    pwm_disable (pwm_disable s) = pwm_disable s := by
  simp [pwm_disable, cli, and_mask_idem, or_mask_idem]

/-- C8: for every starting state (hence every stored color), `pwm_enable`
followed by `pwm_disable` leaves the output pins at the inactive logic
level: the compare-output routing bits of both timers are clear and the
active-low pin bits of `PORTA` are set. -/
theorem enable_disable_pins_inactive (s : PwmState) :
    pins_inactive (pwm_disable (pwm_enable s)) := by
  unfold pins_inactive
  refine ⟨?_, ?_, ?_⟩
  · exact or_and_mask _ _
  · exact and_compl8_mask_self _ _ (by decide)
  · exact and_compl8_mask_self _ _ (by decide)

/-- C9: the stored color is overwritten only by `pwm_set_color_rgb`: from
every state, `pwm_init`, `pwm_enable` and `pwm_disable` leave
`pwm_color_rgb` unchanged. -/
theorem color_untouched (s : PwmState) :
    (pwm_init s).pwm_color_rgb = s.pwm_color_rgb ∧
    (pwm_enable s).pwm_color_rgb = s.pwm_color_rgb ∧
    (pwm_disable s).pwm_color_rgb = s.pwm_color_rgb :=
  ⟨rfl, rfl, rfl⟩

/-- C10: `pwm_enable` is idempotent: calling it twice from any state leaves
the entire machine state identical to calling it once. -/
theorem enable_idempotent (s : PwmState) :
    pwm_enable (pwm_enable s) = pwm_enable s := by
  simp [pwm_enable, cli, or_mask_idem]
